import Mathlib

/-!
Verification development for the clickhouse_monitor_system repository.

Shallow embedding of the core components named by the specification:
the resilient query executor (clickhouse_client/client.py), the slow-query
collector (monitor/management/commands/collect_metrics.py), the EXPLAIN-plan
analyzer (query_lab/advanced_analyzer.py), the analysis persistence service
(query_lab/analysis_service.py), the pattern advisor
(query_lab/optimization_guide.py) and the triage workflow over SlowQuery
records (query_lab/views.py, query_lab/models.py).

Conventions of the embedding:
- machine floats of the source (durations, improvement percentages) are
  modelled as integers; no claim below depends on fractional values;
- wall-clock readings (timezone.now, time.time) are passed in explicitly;
- database tables are association lists threaded through the functions;
- Python exceptions are modelled with Except; a fallible step whose outcome
  depends on the network is passed in as an explicit argument.
-/

/- ===================================================================
   Section 1. AdvancedQueryAnalyzer complexity scoring
   (src/query_lab/advanced_analyzer.py)
   =================================================================== -/

/-- Inline score computation of AdvancedQueryAnalyzer.analyze_with_explain,
step 4 (lines 157-166): +30 full scan, +15 sorting, +20 aggregation,
+35 if pipeline_complexity > 100 else +20 if > 50; result min-ed with 100.
There is no branch for pipeline_complexity > 20 on this code path. -/
def analyze_with_explain_score (has_full_scan has_sorting has_aggregation : Bool)
    (pipeline_complexity : Nat) : Nat :=
  min
    ((if has_full_scan then 30 else 0) +
     (if has_sorting then 15 else 0) +
     (if has_aggregation then 20 else 0) +
     (if pipeline_complexity > 100 then 35
      else if pipeline_complexity > 50 then 20
      else 0))
    100

/-- AdvancedQueryAnalyzer._calculate_complexity_score (lines 262-279):
same weights, but with the additional +10 branch for
pipeline_complexity > 20; result min-ed with 100. -/
def calculate_complexity_score (has_full_scan has_sorting has_aggregation : Bool)
    (pipeline_complexity : Nat) : Nat :=
  min
    ((if has_full_scan then 30 else 0) +
     (if has_sorting then 15 else 0) +
     (if has_aggregation then 20 else 0) +
     (if pipeline_complexity > 100 then 35
      else if pipeline_complexity > 50 then 20
      else if pipeline_complexity > 20 then 10
      else 0))
    100

/-- Modelled from the spec: the complexity-score formula of section 4.3
step 7 - start at 0; +30 if full scan; +15 if sorting; +20 if aggregation;
+35 if pipeline_complexity > 100, else +20 if > 50, else +10 if > 20;
clamp to the interval 0..100. -/
def spec_complexity_score (has_full_scan has_sorting has_aggregation : Bool)
    (pipeline_complexity : Nat) : Nat :=
  max 0 (min
    ((if has_full_scan then 30 else 0) +
     (if has_sorting then 15 else 0) +
     (if has_aggregation then 20 else 0) +
     (if pipeline_complexity > 100 then 35
      else if pipeline_complexity > 50 then 20
      else if pipeline_complexity > 20 then 10
      else 0))
    100)

/- ===================================================================
   Section 2. ClickHouseClient.execute_query retry loop
   (src/clickhouse_client/client.py, lines 74-157)
   =================================================================== -/

/-- Result record returned by execute_query, mirroring the QueryResult
dataclass: data rows, column names and an optional error string.
The wall-clock execution_time field is real time and is not modelled. -/
structure QueryResult where
  data : List (List String)
  columns : List String
  error : Option String
deriving DecidableEq

/-- Outcome of one attempt of the try-block body (connect plus
self._client.execute): either rows and columns come back, or a
clickhouse_driver error (the retried class) is raised, or some other
exception is raised (for example a connection-setup failure). -/
inductive AttemptOutcome where
  | success (data : List (List String)) (columns : List String)
  | driverError (msg : String)
  | otherError (msg : String)
deriving DecidableEq

/-- Error message built on the driver-error branch, mirroring
the formatted string of line 133. -/
def driver_error_msg (attempt : Nat) (e : String) : String :=
  "ClickHouse error on attempt " ++ toString (attempt + 1) ++ ": " ++ e

/-- Error message built on the unexpected-error branch, mirroring
the formatted string of line 149. -/
def unexpected_error_msg (attempt : Nat) (e : String) : String :=
  "Unexpected error on attempt " ++ toString (attempt + 1) ++ ": " ++ e

/-- The body of the for-loop of execute_query, from a given attempt index,
with enough fuel for the remaining loop iterations. The oracle gives the
outcome of each attempt. Returns the QueryResult if some iteration
returned (none models the loop running out of iterations, in which case
the Python function would fall through returning None), paired with the
number of attempts actually performed. -/
def execute_query_from (oracle : Nat → AttemptOutcome) (max_retries : Nat) :
    Nat → Nat → Option QueryResult × Nat
  | _, 0 => (none, 0)
  | attempt, fuel + 1 =>
    match oracle attempt with
    | .success d c => (some ⟨d, c, none⟩, 1)
    | .driverError m =>
      if attempt = max_retries then
        (some ⟨[], [], some (driver_error_msg attempt m)⟩, 1)
      else
        let r := execute_query_from oracle max_retries (attempt + 1) fuel
        (r.1, r.2 + 1)
    | .otherError m =>
      (some ⟨[], [], some (unexpected_error_msg attempt m)⟩, 1)

/-- ClickHouseClient.execute_query: for attempt in range(max_retries + 1),
run one attempt; a driver-level error before the final attempt sleeps and
retries, a driver-level error on the final attempt returns an error result
with empty data, any other exception returns an error result immediately,
success returns the rows. -/
def execute_query (oracle : Nat → AttemptOutcome) (max_retries : Nat) :
    Option QueryResult × Nat :=
  execute_query_from oracle max_retries 0 (max_retries + 1)

/- ===================================================================
   Theorems for claims C4 and C5
   =================================================================== -/

/-- Claim C4 counterexample: with no structural flags set and
pipeline_complexity = 30, the inline score of analyze_with_explain is 0
while the formula claimed by the spec gives 10; the claim that the formula
holds for both code paths is false. -/
theorem C4_counterexample :
    analyze_with_explain_score false false false 30 = 0 ∧
    spec_complexity_score false false false 30 = 10 ∧
    (0 : Nat) ≠ 10 := by
  refine ⟨by decide, by decide, by decide⟩

/-- Claim C4, amended: _calculate_complexity_score computes exactly the
claimed formula for every input; analyze_with_explain computes the claimed
formula except that it omits the +10 branch, so for pipeline_complexity in
21..50 its score is 10 less than the claimed formula, and it agrees with
the claimed formula everywhere else. -/
theorem C4_amended_theorem (fs so ag : Bool) (pc : Nat) :
    calculate_complexity_score fs so ag pc = spec_complexity_score fs so ag pc ∧
    (if 20 < pc ∧ pc ≤ 50 then
      analyze_with_explain_score fs so ag pc + 10 = spec_complexity_score fs so ag pc
    else
      analyze_with_explain_score fs so ag pc = spec_complexity_score fs so ag pc) := by
  constructor
  · simp only [calculate_complexity_score, spec_complexity_score, Nat.zero_max]
  by_cases h : 20 < pc ∧ pc ≤ 50
  · rw [if_pos h]
    have h100 : ¬ (pc > 100) := by omega
    have h50 : ¬ (pc > 50) := by omega
    have h20 : pc > 20 := h.1
    unfold analyze_with_explain_score spec_complexity_score
    rw [if_neg h100, if_neg h50, if_neg h100, if_neg h50, if_pos h20, Nat.zero_max]
    cases fs <;> cases so <;> cases ag <;> simp
  · rw [if_neg h]
    unfold analyze_with_explain_score spec_complexity_score
    rw [Nat.zero_max]
    rcases Nat.lt_or_ge 100 pc with h1 | h1
    · rw [if_pos h1, if_pos h1]
    · rw [if_neg (by omega : ¬ (pc > 100)), if_neg (by omega : ¬ (pc > 100))]
      rcases Nat.lt_or_ge 50 pc with h2 | h2
      · rw [if_pos h2, if_pos h2]
      · rw [if_neg (by omega : ¬ (pc > 50)), if_neg (by omega : ¬ (pc > 50)),
            if_neg (by omega : ¬ (pc > 20))]

/-- Claim C5: an executor whose every attempt raises a driver-level
(transport) error, configured with max_retries = 2, performs exactly
3 attempts and returns (rather than raises) a result with a non-nil
error and empty rows. -/
theorem C5_theorem (oracle : Nat → AttemptOutcome) (m : String)
    (h : ∀ n, oracle n = .driverError m) :
    execute_query oracle 2 =
      (some ⟨[], [], some (driver_error_msg 2 m)⟩, 3) := by
  simp [execute_query, execute_query_from, h]

/-- Claim C5 witness: the theorem applied to the oracle that reports a
connection reset on every attempt. -/
theorem C5_witness :
    execute_query (fun _ => .driverError "connection reset") 2 =
      (some ⟨[], [], some "ClickHouse error on attempt 3: connection reset"⟩, 3) :=
  C5_theorem (fun _ => .driverError "connection reset") "connection reset"
    (fun _ => rfl)

/- ===================================================================
   Section 3. Triage workflow over SlowQuery records
   (src/query_lab/views.py, src/query_lab/models.py, src/query_lab/forms.py)
   =================================================================== -/

/-- SlowQuery.STATUS_CHOICES from query_lab/models.py: the pairs of the
stored status key and its display label. -/
def STATUS_CHOICES : List (String × String) :=
  [("new", "🆕 Новый"),
   ("in_analysis", "🔍 В анализе"),
   ("waiting_feedback", "⏳ Ожидает фидбека"),
   ("optimized", "✅ Оптимизирован"),
   ("ignored", "❌ Игнорирован"),
   ("cannot_optimize", "🚫 Не подлежит оптимизации")]

/-- Keys of STATUS_CHOICES; membership of a posted status string in
dict(SlowQuery.STATUS_CHOICES) tests against these. -/
def status_keys : List String := STATUS_CHOICES.map Prod.fst

/-- A SlowQuery row: the workflow fields of the model. Numeric float
fields are modelled as integers and datetimes as integer instants;
assigned_to is the assigned username, if any. -/
structure SlowQueryRec where
  status : String
  problem_category : String
  analysis_notes : String
  tags : String
  optimized_query : String
  optimization_notes : String
  expected_improvement : Option Int
  actual_improvement : Option Int
  before_duration_ms : Option Int
  after_duration_ms : Option Int
  assigned_to : Option String
  analysis_started_at : Option Int
  optimized_at : Option Int
deriving DecidableEq

/-- update_query_status (views.py lines 163-181): a posted status that is a
key of STATUS_CHOICES is stored unconditionally; entering in_analysis sets
analysis_started_at and the assignee only when the timestamp is unset, and
entering optimized sets optimized_at only when that timestamp is unset.
A posted status outside STATUS_CHOICES leaves the record unsaved. -/
def update_query_status (sq : SlowQueryRec) (new_status : String)
    (now : Int) (user : String) : SlowQueryRec :=
  if status_keys.contains new_status then
    let sq1 := { sq with status := new_status }
    if new_status = "in_analysis" ∧ sq1.analysis_started_at = none then
      { sq1 with analysis_started_at := some now, assigned_to := some user }
    else if new_status = "optimized" ∧ sq1.optimized_at = none then
      { sq1 with optimized_at := some now }
    else sq1
  else sq

/-- The quick_action branch of query_detail (views.py lines 64-90):
start_analysis and mark_optimized write their timestamp unconditionally;
an unrecognized action falls through without changing the record. -/
def query_detail_quick_action (sq : SlowQueryRec) (action : String)
    (now : Int) (user : String) : SlowQueryRec :=
  if action = "assign_to_me" then
    { sq with assigned_to := some user }
  else if action = "start_analysis" then
    { sq with status := "in_analysis", assigned_to := some user,
              analysis_started_at := some now }
  else if action = "mark_optimized" then
    { sq with status := "optimized", optimized_at := some now }
  else if action = "mark_ignored" then
    { sq with status := "ignored" }
  else if action = "cannot_optimize" then
    { sq with status := "cannot_optimize" }
  else sq

/-- Fields accepted by QueryAnalysisForm (forms.py). -/
structure AnalysisFormData where
  problem_category : String
  analysis_notes : String
  tags : String
deriving DecidableEq

/-- The analyze branch of query_detail (views.py lines 93-101): on a valid
form, store the analysis fields, and move a record whose status is new to
in_analysis with the current user as assignee (without touching the
analysis_started_at timestamp). -/
def query_detail_analyze (sq : SlowQueryRec) (valid : Bool)
    (d : AnalysisFormData) (user : String) : SlowQueryRec :=
  if valid then
    let sq1 := { sq with problem_category := d.problem_category,
                         analysis_notes := d.analysis_notes, tags := d.tags }
    if sq1.status = "new" then
      { sq1 with status := "in_analysis", assigned_to := some user }
    else sq1
  else sq

/-- Fields accepted by QueryOptimizationForm (forms.py). -/
structure OptimizationFormData where
  optimized_query : String
  optimization_notes : String
  expected_improvement : Option Int
deriving DecidableEq

/-- The optimize branch of query_detail (views.py lines 104-110): on a
valid form, store the proposal fields and set status to waiting_feedback
regardless of the current status. -/
def query_detail_optimize (sq : SlowQueryRec) (valid : Bool)
    (d : OptimizationFormData) : SlowQueryRec :=
  if valid then
    { sq with optimized_query := d.optimized_query,
              optimization_notes := d.optimization_notes,
              expected_improvement := d.expected_improvement,
              status := "waiting_feedback" }
  else sq

/-- Fields accepted by ResultsForm (forms.py). -/
structure ResultsFormData where
  actual_improvement : Option Int
  before_duration_ms : Option Int
  after_duration_ms : Option Int
deriving DecidableEq

/-- The save_results branch of query_detail (views.py lines 113-119): on a
valid form, store the measured results and set status to optimized
(without touching the optimized_at timestamp). -/
def query_detail_save_results (sq : SlowQueryRec) (valid : Bool)
    (d : ResultsFormData) : SlowQueryRec :=
  if valid then
    { sq with actual_improvement := d.actual_improvement,
              before_duration_ms := d.before_duration_ms,
              after_duration_ms := d.after_duration_ms,
              status := "optimized" }
  else sq

/-- One status-affecting POST handled by the views: a quick action, one of
the three form submissions, or an update_query_status request. -/
inductive TriageOp where
  | quick (action : String) (now : Int) (user : String)
  | analyze (valid : Bool) (d : AnalysisFormData) (user : String)
  | optimize (valid : Bool) (d : OptimizationFormData)
  | save_results (valid : Bool) (d : ResultsFormData)
  | set_status (new_status : String) (now : Int) (user : String)

/-- Dispatch of a TriageOp to the corresponding view code. -/
def triage_apply (sq : SlowQueryRec) : TriageOp → SlowQueryRec
  | .quick a now u => query_detail_quick_action sq a now u
  | .analyze v d u => query_detail_analyze sq v d u
  | .optimize v d => query_detail_optimize sq v d
  | .save_results v d => query_detail_save_results sq v d
  | .set_status ns now u => update_query_status sq ns now u

/-- Modelled from the spec: the transition edges of the triage state
machine of section 4.5 - new to in_analysis to waiting_feedback to
optimized, with side exits from new and in_analysis to ignored and to
cannot_optimize; optimized, ignored and cannot_optimize are terminal. -/
def spec_allowed_edge (src tgt : String) : Bool :=
  [("new", "in_analysis"), ("in_analysis", "waiting_feedback"),
   ("waiting_feedback", "optimized"), ("new", "ignored"),
   ("in_analysis", "ignored"), ("new", "cannot_optimize"),
   ("in_analysis", "cannot_optimize")].contains (src, tgt)

/-- A record in in_analysis whose analysis already started at instant 100. -/
def sq_c2 : SlowQueryRec :=
  { status := "in_analysis", problem_category := "", analysis_notes := "",
    tags := "", optimized_query := "", optimization_notes := "",
    expected_improvement := none, actual_improvement := none,
    before_duration_ms := none, after_duration_ms := none,
    assigned_to := some "alice", analysis_started_at := some 100,
    optimized_at := none }

/-- A record that already reached the terminal status optimized. -/
def sq_c6 : SlowQueryRec :=
  { status := "optimized", problem_category := "", analysis_notes := "",
    tags := "", optimized_query := "", optimization_notes := "",
    expected_improvement := none, actual_improvement := none,
    before_duration_ms := none, after_duration_ms := none,
    assigned_to := some "alice", analysis_started_at := some 100,
    optimized_at := some 200 }

/-- Claim C2 counterexample: on a record whose analysis_started_at is
already set to 100, the start_analysis quick action of query_detail
re-enters in_analysis and overwrites the timestamp with the new current
time 200, so the timestamp is not set at most once. -/
theorem C2_counterexample :
    sq_c2.analysis_started_at = some 100 ∧
    (query_detail_quick_action sq_c2 "start_analysis" 200 "bob").status
      = "in_analysis" ∧
    (query_detail_quick_action sq_c2 "start_analysis" 200 "bob").analysis_started_at
      = some 200 ∧
    some (200 : Int) ≠ some (100 : Int) := by
  refine ⟨rfl, by decide, by decide, by decide⟩

/-- Claim C2, amended: transitions through update_query_status and through
the three query_detail forms never overwrite analysis_started_at or
optimized_at once set; the only overwrites are the query_detail quick
actions start_analysis and mark_optimized, which store the current time
unconditionally. -/
theorem C2_amended_theorem (sq : SlowQueryRec) (op : TriageOp) (t : Int) :
    (sq.analysis_started_at = some t →
      (triage_apply sq op).analysis_started_at = some t ∨
      ∃ now user, op = .quick "start_analysis" now user ∧
        (triage_apply sq op).analysis_started_at = some now) ∧
    (sq.optimized_at = some t →
      (triage_apply sq op).optimized_at = some t ∨
      ∃ now user, op = .quick "mark_optimized" now user ∧
        (triage_apply sq op).optimized_at = some now) := by
  cases op with
  | quick a now u =>
    constructor <;> intro h <;>
      simp only [triage_apply, query_detail_quick_action] <;>
      split_ifs with h1 h2 h3 h4 h5 <;> simp_all
  | analyze v d u =>
    constructor <;> intro h <;>
      simp only [triage_apply, query_detail_analyze] <;>
      split_ifs <;> simp_all
  | optimize v d =>
    constructor <;> intro h <;>
      simp only [triage_apply, query_detail_optimize] <;>
      split_ifs <;> simp_all
  | save_results v d =>
    constructor <;> intro h <;>
      simp only [triage_apply, query_detail_save_results] <;>
      split_ifs <;> simp_all
  | set_status ns now u =>
    constructor <;> intro h <;>
      simp only [triage_apply, update_query_status] <;>
      split_ifs <;> simp_all

/-- Claim C2 witness: the amended theorem applied to a concrete record
with both timestamps set, under an update_query_status transition. -/
theorem C2_witness :
    ((triage_apply sq_c6 (.set_status "optimized" 9 "bob")).analysis_started_at
        = some 100 ∨
      ∃ now user, TriageOp.set_status "optimized" 9 "bob"
          = .quick "start_analysis" now user ∧
        (triage_apply sq_c6 (.set_status "optimized" 9 "bob")).analysis_started_at
          = some now) ∧
    ((triage_apply sq_c6 (.set_status "optimized" 9 "bob")).optimized_at
        = some 200 ∨
      ∃ now user, TriageOp.set_status "optimized" 9 "bob"
          = .quick "mark_optimized" now user ∧
        (triage_apply sq_c6 (.set_status "optimized" 9 "bob")).optimized_at
          = some now) :=
  ⟨(C2_amended_theorem sq_c6 (.set_status "optimized" 9 "bob") 100).1 rfl,
   (C2_amended_theorem sq_c6 (.set_status "optimized" 9 "bob") 200).2 rfl⟩

/-- Claim C6 counterexample: update_query_status moves a record from the
terminal status optimized straight to new, a change that is not one of the
state-machine edges of the spec, so the defined edges are not enforced. -/
theorem C6_counterexample :
    sq_c6.status = "optimized" ∧
    (update_query_status sq_c6 "new" 0 "carol").status = "new" ∧
    spec_allowed_edge "optimized" "new" = false ∧
    ("new" : String) ≠ "optimized" := by
  refine ⟨rfl, by decide, by decide, by decide⟩

/-- Claim C6, amended: update_query_status stores any requested status that
is a key of STATUS_CHOICES regardless of the current status, and leaves the
status unchanged otherwise; the quick actions likewise force their target
status from any state. The state-machine edges, in particular terminality
of optimized, ignored and cannot_optimize, are not enforced anywhere. -/
theorem C6_amended_theorem (sq : SlowQueryRec) (ns : String)
    (now : Int) (u : String) :
    (update_query_status sq ns now u).status
      = (if status_keys.contains ns then ns else sq.status) ∧
    (query_detail_quick_action sq "start_analysis" now u).status
      = "in_analysis" ∧
    (query_detail_quick_action sq "mark_optimized" now u).status
      = "optimized" ∧
    (query_detail_quick_action sq "mark_ignored" now u).status
      = "ignored" ∧
    (query_detail_quick_action sq "cannot_optimize" now u).status
      = "cannot_optimize" := by
  refine ⟨?_, by simp [query_detail_quick_action], by simp [query_detail_quick_action],
    by simp [query_detail_quick_action], by simp [query_detail_quick_action]⟩
  simp only [update_query_status]
  split_ifs <;> simp_all

/- ===================================================================
   Section 4. AnalysisService.analyze_and_save
   (src/query_lab/analysis_service.py, lines 15-71,
    persisted rows from src/query_lab/models.py QueryAnalysisResult)
   =================================================================== -/

/-- One warning dict as stored in the warnings JSON list; wtype models the
key named type in the source dicts. -/
structure WarningEntry where
  wtype : String
  message : String
  priority : String
deriving DecidableEq

/-- A QueryAnalysisResult row. JSON payloads are modelled as lists;
table_stats as an association list from table name to an opaque stats
blob; instants are integer seconds; durations integer milliseconds. -/
structure AnalysisRecord where
  complexity_score : Nat
  has_full_scan : Bool
  has_sorting : Bool
  has_aggregation : Bool
  pipeline_complexity : Nat
  table_stats : List (String × String)
  recommendations : List String
  warnings : List WarningEntry
  explain_plan : List String
  explain_pipeline : List String
  estimated_improvement : Option Int
  analysis_duration_ms : Int
  analyzed_at : Int
  analysis_version : String
deriving DecidableEq

/-- A QueryAnalysisResult row freshly created with the model-field
defaults of query_lab/models.py; analyzed_at is auto_now_add, so it is
the creation instant and is never changed by later saves. -/
def fresh_analysis_record (now : Int) : AnalysisRecord :=
  { complexity_score := 0, has_full_scan := false, has_sorting := false,
    has_aggregation := false, pipeline_complexity := 0, table_stats := [],
    recommendations := [], warnings := [], explain_plan := [],
    explain_pipeline := [], estimated_improvement := none,
    analysis_duration_ms := 0, analyzed_at := now, analysis_version := "1.0" }

/-- The days attribute of a Python timedelta between two integer-second
instants: floor division by 86400 (flooring toward minus infinity). -/
def timedelta_days (diff : Int) : Int := Int.fdiv diff 86400

/-- Freshness test of analyze_and_save lines 20-28: an existing analysis
is returned as-is when it is less than one day old. -/
def is_fresh (existing : Option AnalysisRecord) (now : Int) : Bool :=
  match existing with
  | some ex => timedelta_days (now - ex.analyzed_at) < 1
  | none => false

/-- Outcome of the analysis step (the analyzer.analyze_with_explain call
of line 34): it either returns, or raises with a message. Its behaviour
depends on the network, so it is an explicit argument here. -/
inductive StepResult where
  | ok
  | raises (msg : String)
deriving DecidableEq

/-- Message of the AttributeError raised by line 40 of the source, which
passes query_log.query_text (a str) to _calculate_complexity_score, whose
body calls .get on it as though it were a dict. -/
def str_get_attr_error : String :=
  "\x27str\x27 object has no attribute \x27get\x27"

/-- The try body of analyze_and_save (lines 32-60) as an Except
computation. The analysis step itself may raise; if it returns, the code
next evaluates the first value of the defaults dict,
analyzer._calculate_complexity_score(query_log.query_text), which raises
an AttributeError (str_get_attr_error) before any field is stored, since
the SQL text is passed where a dict is expected. Every path through the
try body therefore raises, and the result type Empty records that the
body never completes normally. -/
def analysis_try_block : StepResult → Except String Empty
  | .raises msg => .error msg
  | .ok => .error str_get_attr_error

/-- The warnings list stored by the exception handler of lines 62-71:
a single entry of priority high describing the failure. -/
def analysis_error_warnings (msg : String) : List WarningEntry :=
  [{ wtype := "analysis_error", message := msg, priority := "high" }]

/-- The non-cached path of analyze_and_save: run the try body and, on the
exception, perform update_or_create(query_log, defaults=(warnings,
analysis_duration_ms)) - an existing row keeps every other field, a
missing row is created with the model defaults. Returns the row handed
back to the caller and the stored row after the call. -/
def analyze_and_save_body (existing : Option AnalysisRecord) (step : StepResult)
    (now : Int) (dur : Int) : AnalysisRecord × Option AnalysisRecord :=
  match analysis_try_block step with
  | .ok e => e.elim
  | .error msg =>
    match existing with
    | some old =>
      let r := { old with warnings := analysis_error_warnings msg,
                          analysis_duration_ms := dur }
      (r, some r)
    | none =>
      let r := { fresh_analysis_record now with
                   warnings := analysis_error_warnings msg,
                   analysis_duration_ms := dur }
      (r, some r)

/-- AnalysisService.analyze_and_save: with force_refresh false and a
stored analysis less than one day old, return it unchanged; otherwise run
the analysis and store the outcome. First component: the returned row;
second: the stored row afterwards. -/
def analyze_and_save (existing : Option AnalysisRecord) (force_refresh : Bool)
    (step : StepResult) (now : Int) (dur : Int) :
    AnalysisRecord × Option AnalysisRecord :=
  match existing, force_refresh with
  | some ex, false =>
    if timedelta_days (now - ex.analyzed_at) < 1 then (ex, some ex)
    else analyze_and_save_body (some ex) step now dur
  | some ex, true => analyze_and_save_body (some ex) step now dur
  | none, _ => analyze_and_save_body none step now dur

/-- A stored stale analysis with distinctive non-default fields. -/
def stale_record : AnalysisRecord :=
  { fresh_analysis_record 0 with complexity_score := 55, has_full_scan := true }

/-- Claim C3 counterexample: when the analysis step raises, the returned
row carries one warning whose priority is high, not critical, and on a
record that already existed the boolean and score fields keep their old
values (55 and true) instead of being defaulted to zero and false. -/
theorem C3_counterexample :
    (analyze_and_save (some stale_record) true (.raises "boom") 1000 42).1.warnings
      = [{ wtype := "analysis_error", message := "boom", priority := "high" }] ∧
    (∀ w ∈ (analyze_and_save (some stale_record) true (.raises "boom") 1000 42).1.warnings,
      w.priority ≠ "critical") ∧
    (analyze_and_save (some stale_record) true (.raises "boom") 1000 42).1.complexity_score
      = 55 ∧
    (analyze_and_save (some stale_record) true (.raises "boom") 1000 42).1.has_full_scan
      = true := by
  refine ⟨by decide, by decide, by decide, by decide⟩

/-- Claim C3, amended: whenever the analysis step raises and the cached
early return does not apply, analyze_and_save catches the exception and
returns (never propagates) a row whose warnings list is exactly one
warning of high priority describing the failure, and whose
analysis_duration_ms is the measured duration; those are the only fields
written - a row created on this occasion has the model defaults (score 0,
flags false) in every other field, while a pre-existing row keeps every
other field unchanged. -/
theorem C3_amended_theorem (existing : Option AnalysisRecord) (force : Bool)
    (msg : String) (now dur : Int)
    (hrun : force = true ∨ is_fresh existing now = false) :
    (analyze_and_save existing force (.raises msg) now dur).1.warnings
      = analysis_error_warnings msg ∧
    (analyze_and_save existing force (.raises msg) now dur).1.warnings.length = 1 ∧
    (∀ w ∈ (analyze_and_save existing force (.raises msg) now dur).1.warnings,
      w.priority = "high" ∧ w.message = msg) ∧
    (analyze_and_save existing force (.raises msg) now dur).1.analysis_duration_ms
      = dur ∧
    (analyze_and_save existing force (.raises msg) now dur).2
      = some (analyze_and_save existing force (.raises msg) now dur).1 ∧
    (existing = none →
      (analyze_and_save existing force (.raises msg) now dur).1
        = { fresh_analysis_record now with
              warnings := analysis_error_warnings msg,
              analysis_duration_ms := dur }) ∧
    (∀ old, existing = some old →
      (analyze_and_save existing force (.raises msg) now dur).1
        = { old with warnings := analysis_error_warnings msg,
                     analysis_duration_ms := dur }) := by
  rcases existing with _ | ex <;> cases force <;>
    simp_all [analyze_and_save, analyze_and_save_body, analysis_try_block,
      is_fresh, analysis_error_warnings]
  rw [if_neg (Int.not_lt.mpr hrun)]
  simp

/-- Claim C3 witness: the amended theorem at a concrete input with no
stored analysis. -/
theorem C3_witness :
    (analyze_and_save none false (.raises "boom") 5 7).1.warnings
      = analysis_error_warnings "boom" ∧
    (analyze_and_save none false (.raises "boom") 5 7).1.warnings.length = 1 ∧
    (∀ w ∈ (analyze_and_save none false (.raises "boom") 5 7).1.warnings,
      w.priority = "high" ∧ w.message = "boom") ∧
    (analyze_and_save none false (.raises "boom") 5 7).1.analysis_duration_ms = 7 ∧
    (analyze_and_save none false (.raises "boom") 5 7).2
      = some (analyze_and_save none false (.raises "boom") 5 7).1 ∧
    ((none : Option AnalysisRecord) = none →
      (analyze_and_save none false (.raises "boom") 5 7).1
        = { fresh_analysis_record 5 with
              warnings := analysis_error_warnings "boom",
              analysis_duration_ms := 7 }) ∧
    (∀ old, (none : Option AnalysisRecord) = some old →
      (analyze_and_save none false (.raises "boom") 5 7).1
        = { old with warnings := analysis_error_warnings "boom",
                     analysis_duration_ms := 7 }) :=
  C3_amended_theorem none false "boom" 5 7 (Or.inr rfl)

/-- Claim C10: with force_refresh false and a stored analysis whose
analyzed_at instant is less than one day before now, analyze_and_save
returns the stored row itself and the stored state is unchanged - no
analysis step runs and no field of the stored row is modified. -/
theorem C10_theorem (existing : Option AnalysisRecord) (ex : AnalysisRecord)
    (step : StepResult) (now dur : Int)
    (hex : existing = some ex)
    (hfresh : timedelta_days (now - ex.analyzed_at) < 1) :
    analyze_and_save existing false step now dur = (ex, existing) := by
  subst hex
  simp [analyze_and_save, hfresh]

/-- Claim C10 witness: a record analyzed at instant 0 queried again at
instant 86399 (one second short of a day) is returned unchanged. -/
theorem C10_witness :
    analyze_and_save (some stale_record) false .ok 86399 3
      = (stale_record, some stale_record) :=
  C10_theorem (some stale_record) stale_record .ok 86399 3 rfl (by decide)

/- ===================================================================
   Section 5. The slow-query collector
   (src/monitor/management/commands/collect_metrics.py,
    persisted rows from src/monitor/models.py QueryLog and
    src/query_lab/models.py SlowQuery)
   =================================================================== -/

/-- A Python value as delivered in a telemetry row of system.query_log.
Numerics are integers; a datetime carries its instant and whether it is
naive (without timezone). -/
inductive PyVal where
  | str (s : String)
  | int (n : Int)
  | float (q : Int)
  | datetime (instant : Int) (naive : Bool)
  | none
deriving DecidableEq

/-- float(x) applied to the duration column (line 180). Numbers convert;
None or any non-numeric value raises. (A numeric string would also
convert in Python; the telemetry source delivers this column as a number,
so string parsing is not modelled.) -/
def py_float : PyVal → Except String Int
  | .int n => .ok n
  | .float q => .ok q
  | _ => .error "float() argument must be a number, not NoneType"

/-- x or 0 on the counter columns (lines 181-183): None becomes 0,
numbers stay themselves (a falsy 0 also yields 0). Non-numeric values do
not occur for these columns per the telemetry-source contract and are
modelled as 0. -/
def py_or_zero : PyVal → Int
  | .int n => n
  | .float q => q
  | _ => 0

/-- normalized_query_hash or empty-string (line 178): None becomes the
empty string, anything else stays itself. -/
def py_or_empty : PyVal → PyVal
  | .none => .str ""
  | v => v

/-- timezone.make_aware on a naive start timestamp (lines 171-172): a
naive datetime becomes aware at the same instant; None and aware values
pass through. -/
def normalize_start_time : PyVal → PyVal
  | .datetime t true => .datetime t false
  | v => v

/-- A persisted QueryLog row (monitor/models.py). String-typed columns
keep their incoming PyVal; the clickhouse_instance foreign key is the
same single instance throughout a collection run and is not modelled. -/
structure QueryLogRow where
  query_id : PyVal
  query_text : PyVal
  normalized_query_hash : PyVal
  user : PyVal
  duration_ms : Int
  read_rows : Int
  read_bytes : Int
  memory_usage : Int
  query_start_time : PyVal
  is_slow : Bool
  is_initial : Bool
deriving DecidableEq

/-- Command.parse_query_log_row (lines 159-187): positionally unpack the
13 columns (a row of any other width raises a ValueError at the tuple
unpacking), convert the duration with float(), default the counters and
the hash, normalize the start timestamp, and mark the row slow/initial. -/
def parse_query_log_row (row : List PyVal) : Except String QueryLogRow :=
  match row with
  | [query_id, query, query_start_time, query_duration_ms, read_rows,
     read_bytes, memory_usage, user, _client_name, _databases, _tables,
     _columns, normalized_query_hash] =>
    match py_float query_duration_ms with
    | .error e => .error e
    | .ok dur =>
      .ok { query_id := query_id, query_text := query,
            normalized_query_hash := py_or_empty normalized_query_hash,
            user := user, duration_ms := dur,
            read_rows := py_or_zero read_rows,
            read_bytes := py_or_zero read_bytes,
            memory_usage := py_or_zero memory_usage,
            query_start_time := normalize_start_time query_start_time,
            is_slow := true, is_initial := true }
  | _ => .error "ValueError: not enough values to unpack (expected 13)"

/-- The database state touched by a collection run: the QueryLog table
and, for SlowQuery, the query_id values of the QueryLog rows that already
have a triage case (SlowQuery is keyed by its one-to-one query_log row,
which save_query_log keeps unique per query_id). -/
structure CollectorDB where
  query_logs : List QueryLogRow
  slow_query_cases : List PyVal
deriving DecidableEq

/-- The update branch of save_query_log (lines 200-206): only the four
mutable metrics of the existing row are overwritten. -/
def update_metrics (r q : QueryLogRow) : QueryLogRow :=
  { r with duration_ms := q.duration_ms, read_rows := q.read_rows,
           read_bytes := q.read_bytes, memory_usage := q.memory_usage }

/-- Replace the first row with the given query_id by its metrics-updated
version, leaving every other row alone. -/
def replace_first_log : List QueryLogRow → QueryLogRow → List QueryLogRow
  | [], _ => []
  | r :: rs, q =>
    if r.query_id == q.query_id then update_metrics r q :: rs
    else r :: replace_first_log rs q

/-- Command.save_query_log (lines 189-212): get_or_create keyed on
query_id; a fresh id appends a row built from the parsed data, a known id
updates only duration, rows, bytes and memory on the existing row.
Returns the new database and the row handed back to the caller. -/
def save_query_log (db : CollectorDB) (q : QueryLogRow) :
    CollectorDB × QueryLogRow :=
  match db.query_logs.find? (fun r => r.query_id == q.query_id) with
  | some r =>
    ({ db with query_logs := replace_first_log db.query_logs q },
     update_metrics r q)
  | Option.none =>
    ({ db with query_logs := db.query_logs ++ [q] }, q)

/-- How a collection run aborts: the per-row exception handler of
collect_slow_queries (lines 153-155) evaluates the expression
stats incremented by one, but the name stats is not bound anywhere in
that method (stats is a local of the caller collect_metrics), so the
handler itself raises a NameError that nothing in the loop catches. -/
inductive CollectAbort where
  | name_error_stats
deriving DecidableEq

/-- The row loop of Command.collect_slow_queries (lines 142-157), in the
persisting (non-dry-run) mode: each row is parsed and saved inside a try;
a row whose parsing raises enters the handler, which raises the NameError
described at CollectAbort and thereby aborts the whole loop. On success
the saved rows are returned in order. -/
def collect_slow_queries_fold :
    CollectorDB → List (List PyVal) →
      Except CollectAbort (CollectorDB × List QueryLogRow)
  | db, [] => .ok (db, [])
  | db, row :: rest =>
    match parse_query_log_row row with
    | .ok q =>
      let s := save_query_log db q
      match collect_slow_queries_fold s.1 rest with
      | .ok (db2, qs) => .ok (db2, s.2 :: qs)
      | .error e => .error e
    | .error _ => .error .name_error_stats

/-- Command.create_slow_query_records (lines 214-226): for each saved
QueryLog row, create a SlowQuery case unless one already exists for it;
returns the new database and the number of cases created. -/
def create_slow_query_records :
    CollectorDB → List QueryLogRow → CollectorDB × Nat
  | db, [] => (db, 0)
  | db, ql :: rest =>
    if db.slow_query_cases.contains ql.query_id then
      create_slow_query_records db rest
    else
      let db2 :=
        { db with slow_query_cases := db.slow_query_cases ++ [ql.query_id] }
      let r := create_slow_query_records db2 rest
      (r.1, r.2 + 1)

/-- One persisting collection pass over a batch of telemetry rows, as
collect_metrics wires it (lines 105-115): save all rows, then create the
missing triage cases; the count is the new_slow_queries statistic. -/
def collector_run (db : CollectorDB) (rows : List (List PyVal)) :
    Except CollectAbort (CollectorDB × Nat) :=
  match collect_slow_queries_fold db rows with
  | .error e => .error e
  | .ok (db2, qls) => .ok (create_slow_query_records db2 qls)

/-- A well-formed 13-column telemetry row. -/
def good_row : List PyVal :=
  [.str "q1", .str "SELECT 1", .datetime 1000 true, .float 2500, .int 10,
   .int 100, .int 50, .str "default", .str "cli", .none, .none, .none,
   .str "h1"]

/-- A 13-column telemetry row whose duration column is None, so that
float(None) raises during normalization. -/
def bad_row : List PyVal :=
  [.str "q0", .str "SELECT 2", .datetime 1000 true, .none, .int 10,
   .int 100, .int 50, .str "default", .str "cli", .none, .none, .none,
   .str "h0"]

/-- Claim C1: a batch containing a row that fails normalization aborts the
whole loop with the NameError of the stats increment instead of counting
the error and continuing - the good row after it is never processed -
while the same good row alone is processed fine. -/
theorem C1_theorem :
    collect_slow_queries_fold ⟨[], []⟩ [bad_row, good_row]
      = .error .name_error_stats ∧
    (∃ db2 qls, collect_slow_queries_fold ⟨[], []⟩ [good_row] = .ok (db2, qls) ∧
      qls.length = 1) := by
  exact ⟨rfl, _, _, rfl, rfl⟩

/-- The stored query ids, in table order. -/
def log_ids (db : CollectorDB) : List PyVal :=
  db.query_logs.map (fun r => r.query_id)

lemma replace_first_log_ids (l : List QueryLogRow) (q : QueryLogRow) :
    (replace_first_log l q).map (fun r => r.query_id)
      = l.map (fun r => r.query_id) := by
  induction l with
  | nil => rfl
  | cons r rs ih =>
    unfold replace_first_log
    split
    · simp [update_metrics]
    · simp [ih]

lemma save_query_log_cases (db : CollectorDB) (q : QueryLogRow) :
    (save_query_log db q).1.slow_query_cases = db.slow_query_cases := by
  unfold save_query_log
  split <;> rfl

lemma save_query_log_ret_id (db : CollectorDB) (q : QueryLogRow) :
    (save_query_log db q).2.query_id = q.query_id := by
  unfold save_query_log
  split
  · rename_i r hr
    have hp := List.find?_some hr
    simp only [beq_iff_eq] at hp
    simpa [update_metrics] using hp
  · rfl

lemma save_query_log_mem (db : CollectorDB) (q : QueryLogRow) :
    q.query_id ∈ log_ids (save_query_log db q).1 := by
  unfold save_query_log log_ids
  split
  · rename_i r hr
    have hmem := List.mem_of_find?_eq_some hr
    have hp := List.find?_some hr
    simp only [beq_iff_eq] at hp
    simp only [replace_first_log_ids]
    exact List.mem_map.mpr ⟨r, hmem, hp⟩
  · simp

lemma save_query_log_mono (db : CollectorDB) (q : QueryLogRow) (i : PyVal)
    (h : i ∈ log_ids db) : i ∈ log_ids (save_query_log db q).1 := by
  unfold log_ids at *
  unfold save_query_log
  split
  · simpa only [replace_first_log_ids] using h
  · simp only [List.map_append, List.mem_append]
    exact Or.inl h

lemma find_log_of_mem (db : CollectorDB) (q : QueryLogRow)
    (h : q.query_id ∈ log_ids db) :
    ∃ r, db.query_logs.find? (fun x => x.query_id == q.query_id) = some r := by
  rcases List.mem_map.mp h with ⟨r, hr, hid⟩
  have hs : (db.query_logs.find? (fun x => x.query_id == q.query_id)).isSome := by
    rw [List.find?_isSome]
    exact ⟨r, hr, by simp [hid]⟩
  rcases Option.isSome_iff_exists.mp hs with ⟨r2, hr2⟩
  exact ⟨r2, hr2⟩

/-- Combined invariants of one successful pass of the row loop: the case
table is untouched, stored ids persist, every input row parses and its id
ends up stored, and every returned row carries the id of some input row,
and conversely every input row is represented among the returned rows. -/
lemma fold_spec :
    ∀ (rows : List (List PyVal)) (db db2 : CollectorDB) (qls : List QueryLogRow),
      collect_slow_queries_fold db rows = .ok (db2, qls) →
      db2.slow_query_cases = db.slow_query_cases ∧
      (∀ i, i ∈ log_ids db → i ∈ log_ids db2) ∧
      (∀ row ∈ rows, ∃ q, parse_query_log_row row = .ok q ∧
        q.query_id ∈ log_ids db2) ∧
      (∀ ql ∈ qls, ∃ row ∈ rows, ∃ q, parse_query_log_row row = .ok q ∧
        ql.query_id = q.query_id) ∧
      (∀ row ∈ rows, ∃ q ql, parse_query_log_row row = .ok q ∧ ql ∈ qls ∧
        ql.query_id = q.query_id) := by
  intro rows
  induction rows with
  | nil =>
    intro db db2 qls h
    simp only [collect_slow_queries_fold, Except.ok.injEq, Prod.mk.injEq] at h
    obtain ⟨h1, h2⟩ := h
    subst h1
    subst h2
    exact ⟨rfl, fun i hi => hi, by simp, by simp, by simp⟩
  | cons row rest ih =>
    intro db db2 qls h
    simp only [collect_slow_queries_fold] at h
    split at h
    · rename_i q hp
      split at h
      · rename_i dbr qs hrest
        simp only [Except.ok.injEq, Prod.mk.injEq] at h
        obtain ⟨rfl, rfl⟩ := h
        obtain ⟨ih1, ih2, ih3, ih4, ih5⟩ := ih _ _ _ hrest
        refine ⟨?_, ?_, ?_, ?_, ?_⟩
        · rw [ih1, save_query_log_cases]
        · intro i hi
          exact ih2 i (save_query_log_mono db q i hi)
        · intro row2 hm
          rcases List.mem_cons.mp hm with h1 | h1
          · subst h1
            exact ⟨q, hp, ih2 _ (save_query_log_mem db q)⟩
          · exact ih3 row2 h1
        · intro ql hm
          rcases List.mem_cons.mp hm with h1 | h1
          · subst h1
            exact ⟨row, List.mem_cons_self row rest, q, hp,
              save_query_log_ret_id db q⟩
          · obtain ⟨row2, hrow2, q2, hq2, hid2⟩ := ih4 ql h1
            exact ⟨row2, List.mem_cons_of_mem _ hrow2, q2, hq2, hid2⟩
        · intro row2 hm
          rcases List.mem_cons.mp hm with h1 | h1
          · subst h1
            exact ⟨q, (save_query_log db q).2, hp,
              List.mem_cons_self _ _, save_query_log_ret_id db q⟩
          · obtain ⟨q2, ql2, hq2, hql2, hid2⟩ := ih5 row2 h1
            exact ⟨q2, ql2, hq2, List.mem_cons_of_mem _ hql2, hid2⟩
      · exact absurd h (by simp)
    · exact absurd h (by simp)

/-- When every row parses and its id is already stored, the row loop
succeeds and changes neither the stored id list nor the case table. -/
lemma fold_total :
    ∀ (rows : List (List PyVal)) (db : CollectorDB),
      (∀ row ∈ rows, ∃ q, parse_query_log_row row = .ok q ∧
        q.query_id ∈ log_ids db) →
      ∃ db2 qls, collect_slow_queries_fold db rows = .ok (db2, qls) ∧
        log_ids db2 = log_ids db ∧
        db2.slow_query_cases = db.slow_query_cases := by
  intro rows
  induction rows with
  | nil => intro db _; exact ⟨db, [], rfl, rfl, rfl⟩
  | cons row rest ih =>
    intro db hrows
    obtain ⟨q, hq, hmem⟩ := hrows row (List.mem_cons_self row rest)
    obtain ⟨r, hr⟩ := find_log_of_mem db q hmem
    have hsave_ids : log_ids (save_query_log db q).1 = log_ids db := by
      unfold save_query_log
      rw [hr]
      exact replace_first_log_ids _ _
    have hsave_cases := save_query_log_cases db q
    have hrest : ∀ row2 ∈ rest, ∃ q2, parse_query_log_row row2 = .ok q2 ∧
        q2.query_id ∈ log_ids (save_query_log db q).1 := by
      intro row2 hm
      obtain ⟨q2, hq2, hm2⟩ := hrows row2 (List.mem_cons_of_mem _ hm)
      exact ⟨q2, hq2, by rw [hsave_ids]; exact hm2⟩
    obtain ⟨db2, qls, hfold, hids, hcases⟩ := ih (save_query_log db q).1 hrest
    refine ⟨db2, (save_query_log db q).2 :: qls, ?_, ?_, ?_⟩
    · simp only [collect_slow_queries_fold, hq, hfold]
    · rw [hids, hsave_ids]
    · rw [hcases, hsave_cases]

lemma create_logs (qls : List QueryLogRow) : ∀ db : CollectorDB,
    (create_slow_query_records db qls).1.query_logs = db.query_logs := by
  induction qls with
  | nil => intro db; rfl
  | cons ql rest ih =>
    intro db
    unfold create_slow_query_records
    split
    · exact ih db
    · simpa using ih _

lemma create_cases_mono (qls : List QueryLogRow) : ∀ (db : CollectorDB) (i : PyVal),
    i ∈ db.slow_query_cases →
    i ∈ (create_slow_query_records db qls).1.slow_query_cases := by
  induction qls with
  | nil => intro db i h; exact h
  | cons ql rest ih =>
    intro db i h
    unfold create_slow_query_records
    split
    · exact ih db i h
    · refine ih _ i ?_
      simp only [List.mem_append]
      exact Or.inl h

lemma create_mem (qls : List QueryLogRow) : ∀ (db : CollectorDB), ∀ ql ∈ qls,
    ql.query_id ∈ (create_slow_query_records db qls).1.slow_query_cases := by
  induction qls with
  | nil => intro db ql h; simp at h
  | cons q0 rest ih =>
    intro db ql h
    unfold create_slow_query_records
    rcases List.mem_cons.mp h with h1 | h1
    · subst h1
      split
      · rename_i hc
        exact create_cases_mono rest db _ (by simpa using hc)
      · refine create_cases_mono rest _ _ ?_
        simp
    · split
      · exact ih db ql h1
      · exact ih _ ql h1

lemma create_zero (qls : List QueryLogRow) : ∀ db : CollectorDB,
    (∀ ql ∈ qls, ql.query_id ∈ db.slow_query_cases) →
    create_slow_query_records db qls = (db, 0) := by
  induction qls with
  | nil => intro db _; rfl
  | cons q0 rest ih =>
    intro db h
    have hc : db.slow_query_cases.contains q0.query_id = true := by
      simpa using h q0 (List.mem_cons_self _ _)
    unfold create_slow_query_records
    simp only [hc, if_true]
    exact ih db (fun ql hm => h ql (List.mem_cons_of_mem _ hm))

/-- Claim C7: collection is an idempotent upsert. First part: saving a row
whose query_id is already stored returns the stored row with only the
four mutable metrics replaced, keeps the table length (no duplicate row)
and does not touch the case table. Second part: a second collector run
over the same telemetry rows succeeds with zero new cases, an unchanged
number of stored rows and an unchanged case table. -/
theorem C7_theorem :
    (∀ (db : CollectorDB) (q r : QueryLogRow),
      db.query_logs.find? (fun x => x.query_id == q.query_id) = some r →
      (save_query_log db q).2 = update_metrics r q ∧
      (save_query_log db q).1.query_logs.length = db.query_logs.length ∧
      (save_query_log db q).1.slow_query_cases = db.slow_query_cases) ∧
    (∀ (db : CollectorDB) (rows : List (List PyVal)) (db1 : CollectorDB) (n1 : Nat),
      collector_run db rows = .ok (db1, n1) →
      ∃ db2, collector_run db1 rows = .ok (db2, 0) ∧
        db2.query_logs.length = db1.query_logs.length ∧
        db2.slow_query_cases = db1.slow_query_cases) := by
  constructor
  · intro db q r hr
    refine ⟨?_, ?_, save_query_log_cases db q⟩
    · simp only [save_query_log, hr]
    · simp only [save_query_log, hr]
      have hl := congrArg List.length (replace_first_log_ids db.query_logs q)
      simpa using hl
  · intro db rows db1 n1 hrun
    unfold collector_run at hrun
    cases hfold : collect_slow_queries_fold db rows with
    | error e => rw [hfold] at hrun; exact absurd hrun (by simp)
    | ok p =>
      obtain ⟨dbA, qlsA⟩ := p
      rw [hfold] at hrun
      simp only [Except.ok.injEq] at hrun
      obtain ⟨sp1, sp2, sp3, sp4, sp5⟩ := fold_spec rows db dbA qlsA hfold
      have hfst : (create_slow_query_records dbA qlsA).1 = db1 := by
        rw [hrun]
      have hlogs1 : db1.query_logs = dbA.query_logs := by
        rw [← hfst]
        exact create_logs qlsA dbA
      have hids1 : log_ids db1 = log_ids dbA := by
        unfold log_ids
        rw [hlogs1]
      have hrows : ∀ row ∈ rows, ∃ q, parse_query_log_row row = .ok q ∧
          q.query_id ∈ log_ids db1 := by
        intro row hm
        obtain ⟨q, hq, hmem⟩ := sp3 row hm
        exact ⟨q, hq, by rw [hids1]; exact hmem⟩
      obtain ⟨dbB, qlsB, hfoldB, hidsB, hcasesB⟩ := fold_total rows db1 hrows
      obtain ⟨_, _, _, spB4, _⟩ := fold_spec rows db1 dbB qlsB hfoldB
      have hmemcases : ∀ ql ∈ qlsB, ql.query_id ∈ dbB.slow_query_cases := by
        intro ql hm
        obtain ⟨row, hrow, q, hq, hid⟩ := spB4 ql hm
        obtain ⟨q2, qlA, hq2, hqlA, hidA⟩ := sp5 row hrow
        rw [hq] at hq2
        have hqq : q = q2 := by
          injection hq2
        have hA : qlA.query_id ∈ db1.slow_query_cases := by
          have := create_mem qlsA dbA qlA hqlA
          rw [← hfst]
          exact this
        rw [hcasesB, hid, hqq, ← hidA]
        exact hA
      have hcreateB := create_zero qlsB dbB hmemcases
      refine ⟨dbB, ?_, ?_, ?_⟩
      · simp only [collector_run, hfoldB, hcreateB]
      · have hl := congrArg List.length hidsB
        simpa [log_ids] using hl
      · rw [hcasesB]

/-- The QueryLog row that parse_query_log_row produces from good_row. -/
def good_q : QueryLogRow :=
  { query_id := .str "q1", query_text := .str "SELECT 1",
    normalized_query_hash := .str "h1", user := .str "default",
    duration_ms := 2500, read_rows := 10, read_bytes := 100,
    memory_usage := 50, query_start_time := .datetime 1000 false,
    is_slow := true, is_initial := true }

/-- A later sighting of the same query_id with changed metrics. -/
def qW : QueryLogRow :=
  { query_id := .str "q1", query_text := .str "SELECT 1",
    normalized_query_hash := .str "h1", user := .str "default",
    duration_ms := 9999, read_rows := 20, read_bytes := 200,
    memory_usage := 60, query_start_time := .datetime 2000 false,
    is_slow := true, is_initial := true }

/-- Claim C7 witness: the theorem applied to a store already holding the
row of query id q1 - the re-save only swaps the metrics and keeps the
table sizes - and to the database state left by a first collector run
over the one-row batch, over which a second run creates zero cases. -/
theorem C7_witness :
    ((save_query_log ⟨[good_q], []⟩ qW).2 = update_metrics good_q qW ∧
     (save_query_log ⟨[good_q], []⟩ qW).1.query_logs.length
       = (CollectorDB.mk [good_q] []).query_logs.length ∧
     (save_query_log ⟨[good_q], []⟩ qW).1.slow_query_cases
       = (CollectorDB.mk [good_q] []).slow_query_cases) ∧
    (∃ db2, collector_run (CollectorDB.mk [good_q] [PyVal.str "q1"]) [good_row]
        = .ok (db2, 0) ∧
      db2.query_logs.length
        = (CollectorDB.mk [good_q] [PyVal.str "q1"]).query_logs.length ∧
      db2.slow_query_cases
        = (CollectorDB.mk [good_q] [PyVal.str "q1"]).slow_query_cases) :=
  ⟨C7_theorem.1 ⟨[good_q], []⟩ qW good_q (by rfl),
   C7_theorem.2 ⟨[], []⟩ [good_row] ⟨[good_q], [PyVal.str "q1"]⟩ 1 (by rfl)⟩

/- ===================================================================
   Section 6. Full-scan detection from EXPLAIN indexes output
   (src/query_lab/advanced_analyzer.py, lines 40-50)
   =================================================================== -/

/-- The regex whitespace class over the ASCII characters. -/
def is_re_space (c : Char) : Bool :=
  c == ' ' || c == '\t' || c == '\n' || c == '\r' || c == '\x0b' || c == '\x0c'

/-- Value of the maximal run of leading decimal digits (accumulator form)
together with the remaining characters. -/
def read_digits : List Char → Nat → Nat × List Char
  | c :: cs, acc =>
    if c.isDigit then read_digits cs (acc * 10 + (c.toNat - 48))
    else (acc, c :: cs)
  | [], acc => (acc, [])

/-- Match of the regex Parts: backslash-s star, digits, slash, digits at
the head of the character list, capturing the two numbers. The greedy
quantifiers need no backtracking here because whitespace, digits and the
slash are disjoint character classes. -/
def match_parts_at (cs : List Char) : Option (Nat × Nat) :=
  if cs.take 6 = "Parts:".data then
    let rest := (cs.drop 6).dropWhile is_re_space
    match rest with
    | c :: _ =>
      if c.isDigit then
        let p1 := read_digits rest 0
        match p1.2 with
        | sl :: rest2 =>
          if sl = '/' then
            match rest2 with
            | d :: _ => if d.isDigit then some (p1.1, (read_digits rest2 0).1) else none
            | [] => none
          else none
        | [] => none
      else none
    | [] => none
  else none

/-- re.search of that regex (line 44): the match at the leftmost position
where one exists. -/
def search_parts : List Char → Option (Nat × Nat)
  | [] => none
  | c :: cs =>
    match match_parts_at (c :: cs) with
    | some r => some r
    | Option.none => search_parts cs

/-- Bool test that the pattern is the beginning of the character list. -/
def starts_with_chars : List Char → List Char → Bool
  | [], _ => true
  | _ :: _, [] => false
  | p :: ps, c :: cs => p == c && starts_with_chars ps cs

/-- The Python substring test (the expression Parts: in line of
line 43): the pattern occurs at some position. -/
def contains_chars (pat : List Char) : List Char → Bool
  | [] => starts_with_chars pat []
  | c :: cs => starts_with_chars pat (c :: cs) || contains_chars pat cs

/-- The loop body of lines 42-50 for one output line: the line must
contain Parts:, the regex must find a read/total ratio, and the ratio
must have total_parts above 10 with read_parts at least total_parts. -/
def line_reports_full_scan (line : String) : Bool :=
  if contains_chars ("Parts:".data) line.data then
    match search_parts line.data with
    | some (read_parts, total_parts) =>
      decide (total_parts > 10) && decide (read_parts ≥ total_parts)
    | Option.none => false
  else false

/-- has_full_scan as derived from the EXPLAIN indexes lines: the loop of
lines 41-50 sets it exactly when some line satisfies the condition (the
break merely stops the scan early). -/
def has_full_scan_of_lines (indexes_lines : List String) : Bool :=
  indexes_lines.any line_reports_full_scan

lemma starts_with_chars_iff (pat : List Char) : ∀ cs : List Char,
    starts_with_chars pat cs = true ↔ cs.take pat.length = pat := by
  induction pat with
  | nil => intro cs; simp [starts_with_chars]
  | cons p ps ih =>
    intro cs
    cases cs with
    | nil => simp [starts_with_chars]
    | cons c cs2 =>
      simp only [starts_with_chars, Bool.and_eq_true, beq_iff_eq, ih,
        List.length_cons, List.take_succ_cons, List.cons.injEq]
      constructor
      · rintro ⟨h1, h2⟩; exact ⟨h1.symm, h2⟩
      · rintro ⟨h1, h2⟩; exact ⟨h1.symm, h2⟩

lemma match_parts_at_starts (cs : List Char) (r : Nat × Nat)
    (h : match_parts_at cs = some r) :
    starts_with_chars ("Parts:".data) cs = true := by
  by_cases htake : cs.take 6 = "Parts:".data
  · exact (starts_with_chars_iff _ cs).mpr htake
  · unfold match_parts_at at h
    rw [if_neg htake] at h
    cases h

lemma search_parts_contains (cs : List Char) (r : Nat × Nat)
    (h : search_parts cs = some r) :
    contains_chars ("Parts:".data) cs = true := by
  induction cs with
  | nil => simp [search_parts] at h
  | cons c cs2 ih =>
    unfold search_parts at h
    unfold contains_chars
    cases hm : match_parts_at (c :: cs2) with
    | some r2 =>
      have hs := match_parts_at_starts _ _ hm
      simp [hs]
    | none =>
      rw [hm] at h
      simp only at h
      simp [ih h]

/-- Claim C8: has_full_scan is true exactly when some EXPLAIN indexes line
carries a Parts: read/total ratio with read_parts at least total_parts
and total_parts above 10; in particular a Parts: 12/12 line yields true
and a Parts: 5/5 line yields false. -/
theorem C8_theorem :
    (∀ lines : List String,
      has_full_scan_of_lines lines = true ↔
        ∃ line ∈ lines, ∃ read_parts total_parts,
          search_parts line.data = some (read_parts, total_parts) ∧
          read_parts ≥ total_parts ∧ total_parts > 10) ∧
    has_full_scan_of_lines ["Parts: 12/12"] = true ∧
    has_full_scan_of_lines ["Parts: 5/5"] = false := by
  refine ⟨?_, by decide, by decide⟩
  intro lines
  rw [has_full_scan_of_lines, List.any_eq_true]
  constructor
  · rintro ⟨line, hline, hrep⟩
    refine ⟨line, hline, ?_⟩
    unfold line_reports_full_scan at hrep
    by_cases hc : contains_chars ("Parts:".data) line.data
    · rw [if_pos hc] at hrep
      cases hs : search_parts line.data with
      | some p =>
        obtain ⟨rp, tp⟩ := p
        rw [hs] at hrep
        simp only [Bool.and_eq_true, decide_eq_true_eq] at hrep
        exact ⟨rp, tp, rfl, hrep.2, hrep.1⟩
      | none => rw [hs] at hrep; cases hrep
    · rw [if_neg hc] at hrep; cases hrep
  · rintro ⟨line, hline, rp, tp, hs, hge, hgt⟩
    refine ⟨line, hline, ?_⟩
    unfold line_reports_full_scan
    rw [if_pos (search_parts_contains _ _ hs), hs]
    simp [hge, hgt]

/- ===================================================================
   Section 7. The pattern advisor
   (src/query_lab/optimization_guide.py, QueryOptimizationGuide)
   =================================================================== -/

/-- One regex character atom of the rule table: a literal character
(matched case-insensitively, as analyze_query passes re.IGNORECASE), the
dot (any character except newline), the word class and the whitespace
class. -/
inductive RAtom where
  | lit (c : Char)
  | dot
  | wordc
  | spacec
deriving DecidableEq

/-- One regex item: a single atom, an atom under the star quantifier, or
an atom under the plus quantifier. The 25 expressions of the rule table
only ever quantify single atoms. -/
inductive RItem where
  | one (a : RAtom)
  | star (a : RAtom)
  | plus (a : RAtom)
deriving DecidableEq

/-- Whether an atom matches one character; literals compare
case-insensitively, the word class is alphanumerics plus underscore. -/
def atom_matches : RAtom → Char → Bool
  | .lit c, x => c.toUpper == x.toUpper
  | .dot, x => !(x == '\n')
  | .wordc, x => x.isAlphanum || x == '_'
  | .spacec, x => is_re_space x

/-- Whether the item list matches some prefix of the characters. A plus
is one mandatory atom followed by its star; a star either lets the rest
match here or consumes one more atom character. As a Boolean existence
test this matches exactly the language of the expression, which is what
the truthiness test if re.search(...) observes. -/
def match_items : List RItem → List Char → Bool
  | [], _ => true
  | .one _ :: _, [] => false
  | .one a :: ps, c :: cs => atom_matches a c && match_items ps cs
  | .star a :: ps, cs =>
    match_items ps cs ||
      (match cs with
       | c :: cs2 => atom_matches a c && match_items (.star a :: ps) cs2
       | [] => false)
  | .plus _ :: _, [] => false
  | .plus a :: ps, c :: cs => atom_matches a c && match_items (.star a :: ps) cs
termination_by ps cs => (cs.length, ps.length)

/-- re.search as a truth value: the expression matches at some position. -/
def regex_search (ps : List RItem) : List Char → Bool
  | [] => match_items ps []
  | c :: cs => match_items ps (c :: cs) || regex_search ps cs

/-- A sequence of literal characters of the given string. -/
def lits (s : String) : List RItem :=
  s.data.map (fun c => RItem.one (RAtom.lit c))

/-- The dot-star of the source expressions. -/
def dotStar : RItem := RItem.star RAtom.dot

/-- One entry of the rule table: display name, alternative expressions,
recommendation strings and priority. -/
structure PatternInfo where
  name : String
  patterns : List (List RItem)
  recommendations : List String
  priority : String
deriving DecidableEq

/-- QueryOptimizationGuide.OPTIMIZATION_PATTERNS, with every regular
expression of the source compiled into the item representation, in the
dict order of the source. -/
def OPTIMIZATION_PATTERNS : List (String × PatternInfo) :=
  [("full_scan",
    { name := "📊 Полносканирование таблицы",
      patterns :=
        [lits "WHERE" ++ [dotStar] ++ lits "!=",
         lits "WHERE" ++ [dotStar] ++ lits "NOT IN",
         lits "WHERE" ++ [dotStar] ++ lits "LIKE" ++ [dotStar] ++ lits "%",
         lits "WHERE" ++ [dotStar] ++ lits "IS NULL",
         lits "WHERE" ++ [dotStar] ++ lits "OR" ++ [dotStar] ++ lits "="],
      recommendations :=
        ["Добавьте индексы на колонки в условиях WHERE",
         "Используйте партиционирование для больших таблиц",
         "Рассмотрите материализованные представления для часто запрашиваемых данных",
         "Используйте условия с = вместо != или NOT IN",
         "Для поиска по тексту используйте полнотекстовый поиск"],
      priority := "high" }),
   ("missing_index",
    { name := "📈 Отсутствие индекса",
      patterns :=
        [lits "WHERE" ++ [dotStar, RItem.plus .wordc, dotStar] ++ lits "=",
         lits "WHERE" ++ [dotStar, RItem.plus .wordc, dotStar] ++ lits ">",
         lits "WHERE" ++ [dotStar, RItem.plus .wordc, dotStar] ++ lits "<",
         lits "JOIN" ++ [dotStar] ++ lits "ON" ++ [dotStar] ++ lits "="],
      recommendations :=
        ["Создайте индексы на колонки, используемые в условиях WHERE",
         "Для JOIN создайте индексы на колонки связей",
         "Используйте составные индексы для multiple условий",
         "Проверьте порядок колонок в индексах (high cardinality first)"],
      priority := "high" }),
   ("cross_join",
    { name := "❌ CROSS JOIN",
      patterns :=
        [lits "CROSS JOIN",
         lits "JOIN" ++ [dotStar] ++ lits "ON" ++ [dotStar] ++ lits "1=1",
         lits "," ++ [dotStar] ++ lits ","],
      recommendations :=
        ["Замените CROSS JOIN на INNER JOIN с явными условиями",
         "Добавьте условия JOIN для ограничения декартова произведения",
         "Рассмотрите использование подзапросов вместо CROSS JOIN",
         "Проверьте что все JOIN имеют явные условия"],
      priority := "critical" }),
   ("subquery",
    { name := "🔄 Неоптимизированный подзапрос",
      patterns :=
        [lits "WHERE" ++ [dotStar] ++ lits "IN" ++ [RItem.star .spacec] ++ lits "(SELECT",
         lits "WHERE" ++ [dotStar] ++ lits "EXISTS" ++ [RItem.star .spacec] ++ lits "(SELECT",
         lits "SELECT" ++ [dotStar] ++ lits "(" ++ [RItem.star .spacec] ++ lits "SELECT"],
      recommendations :=
        ["Замените подзапросы на JOIN где это возможно",
         "Используйте CTE (WITH) для сложных подзапросов",
         "Для IN подзапросов рассмотрите временные таблицы",
         "Проверьте что подзапросы возвращают разумное количество строк"],
      priority := "medium" }),
   ("large_result",
    { name := "💾 Большой результат",
      patterns :=
        [lits "SELECT" ++ [RItem.star .spacec] ++ lits "*",
         lits "LIMIT" ++ [RItem.plus .spacec] ++ lits "100000",
         lits "LIMIT" ++ [RItem.plus .spacec] ++ lits "10000"],
      recommendations :=
        ["Выбирайте только необходимые колонки вместо SELECT *",
         "Добавьте агрегации для уменьшения объема данных",
         "Используйте пагинацию с разумными LIMIT",
         "Рассмотрите материализованные представления для часто запрашиваемых агрегаций"],
      priority := "medium" }),
   ("memory_usage",
    { name := "🧠 Высокое использование памяти",
      patterns :=
        [lits "DISTINCT",
         lits "GROUP BY" ++ [dotStar, RItem.plus .wordc] ++ lits "," ++
           [RItem.star .spacec, RItem.plus .wordc] ++ lits "," ++
           [RItem.star .spacec, RItem.plus .wordc],
         lits "ORDER BY" ++ [dotStar, RItem.plus .wordc] ++ lits "," ++
           [RItem.star .spacec, RItem.plus .wordc] ++ lits "," ++
           [RItem.star .spacec, RItem.plus .wordc]],
      recommendations :=
        ["Для DISTINCT рассмотрите приближенные агрегации (uniqCombined)",
         "Упростите GROUP BY - используйте только необходимые колонки",
         "Для сортировки больших результатов используйте индексы",
         "Увеличьте настройки памяти если необходимо (max_memory_usage)"],
      priority := "medium" }),
   ("datetime_optimization",
    { name := "⏰ Оптимизация работы с датами",
      patterns :=
        [lits "WHERE" ++ [dotStar] ++ lits "date" ++ [dotStar] ++ lits ">" ++
           [dotStar] ++ lits "now()",
         lits "WHERE" ++ [dotStar] ++ lits "toDate(",
         lits "WHERE" ++ [dotStar] ++ lits "toString(date)"],
      recommendations :=
        ["Используйте партиционирование по дате для временных рядов",
         "Для фильтрации по датам используйте Date/DateTime типы",
         "Избегайте преобразований типов в условиях WHERE",
         "Используйте предварительно рассчитанные агрегаты по периодам"],
      priority := "medium" })]

/-- One entry of the detected-patterns list built by analyze_query. -/
structure DetectedItem where
  pattern : String
  name : String
  priority : String
  recommendations : List String
deriving DecidableEq

/-- The per-priority tallies of the summary dict. -/
structure AdvisorySummary where
  critical_count : Nat
  high_count : Nat
  medium_count : Nat
  total_patterns : Nat
deriving DecidableEq

/-- The dict returned by analyze_query. -/
structure AdvisoryReport where
  detected_patterns : List DetectedItem
  recommendations : List String
  summary : AdvisorySummary
deriving DecidableEq

/-- The recommendation deduplication loop (lines 152-159): keep the first
occurrence of each string, in order. -/
def dedup_go (seen : List String) : List String → List String
  | [] => []
  | r :: rs => if seen.contains r then dedup_go seen rs
               else r :: dedup_go (r :: seen) rs

/-- QueryOptimizationGuide.analyze_query (lines 130-175): upper-case the
text, detect each rule whose expression list has a match (the break after
the first matching expression is the same truth value as the any here),
deduplicate the recommendations of the detected rules preserving
first-seen order, and tally the detected rules per priority. The whole
computation reads nothing but the text and the constant rule table. -/
def analyze_query (query : String) : AdvisoryReport :=
  let query_upper := query.toUpper
  let detected := OPTIMIZATION_PATTERNS.filterMap (fun kv =>
    if kv.2.patterns.any (fun p => regex_search p query_upper.data) then
      some { pattern := kv.1, name := kv.2.name, priority := kv.2.priority,
             recommendations := kv.2.recommendations }
    else none)
  { detected_patterns := detected,
    recommendations :=
      dedup_go [] (detected.map (fun d => d.recommendations)).flatten,
    summary :=
      { critical_count := (detected.filter (fun d => d.priority == "critical")).length,
        high_count := (detected.filter (fun d => d.priority == "high")).length,
        medium_count := (detected.filter (fun d => d.priority == "medium")).length,
        total_patterns := detected.length } }

/-- Claim C9: the pattern advisor is a pure, deterministic function of the
SQL text - two invocations of analyze_query on the same text return
identical detected-patterns lists, recommendation lists and summaries.
The embedding itself witnesses the no-I/O part: the whole source method
is expressible as a total function of the text and the constant table. -/
theorem C9_theorem (q1 q2 : String) (h : q1 = q2) :
    (analyze_query q1).detected_patterns = (analyze_query q2).detected_patterns ∧
    (analyze_query q1).recommendations = (analyze_query q2).recommendations ∧
    (analyze_query q1).summary = (analyze_query q2).summary := by
  subst h
  exact ⟨rfl, rfl, rfl⟩

/-- Claim C9 witness: the theorem applied to two invocations on the
wildcard-select text. -/
theorem C9_witness :
    (analyze_query "SELECT * FROM users LIMIT 10").detected_patterns
      = (analyze_query "SELECT * FROM users LIMIT 10").detected_patterns ∧
    (analyze_query "SELECT * FROM users LIMIT 10").recommendations
      = (analyze_query "SELECT * FROM users LIMIT 10").recommendations ∧
    (analyze_query "SELECT * FROM users LIMIT 10").summary
      = (analyze_query "SELECT * FROM users LIMIT 10").summary :=
  C9_theorem "SELECT * FROM users LIMIT 10" "SELECT * FROM users LIMIT 10" rfl
